import Mathlib

/-!
Verification of `metaflow/runner/signal_manager.py` (`SignalManager`).

Shallow embedding. Python dicts are association lists over `Nat` keys with
insertion-order append on new keys (matching CPython dict semantics used by
the source: `d[k] = v`, `del d[k]`, `k in d`, iteration in insertion order).
Handlers are abstract identifiers (`Nat`), compared by identity as in a
Python `set`. Handler sets are duplicate-free lists (insertion inserts only
when absent, mirroring `set.add`; `set.remove` raises `KeyError` when the
element is absent).

The Python class stores `signal_map` and `replaced_signals` as CLASS
attributes (shared mutable dicts across all instances); accordingly both
live in a shared `World` together with the process-wide OS disposition
table (`signal.signal`) and the event-loop watcher table
(`loop.add_signal_handler` / `loop.remove_signal_handler`). Each manager
instance carries only its `event_loop` reference (and an identifier so
that its bound-method trampoline `self._handle_signal` is distinguishable
as an OS disposition value).

Python exceptions are embedded with `Except PyErr`.
-/

set_option autoImplicit false

namespace SignalManagerModel

/-- A Python exception relevant to this module: `KeyError` on a dict or set. -/
inductive PyErr where
  | keyError (k : Nat) : PyErr
  deriving DecidableEq, Repr

/-- An OS signal disposition: the process default, a user-supplied handler,
or the bound dispatch trampoline `self._handle_signal` of manager `mgr`. -/
inductive Disposition where
  | dfl : Disposition
  | user (h : Nat) : Disposition
  | trampoline (mgr : Nat) : Disposition
  deriving DecidableEq, Repr

/-- Python dict lookup `d.get(k)` / the guard of `k in d`. -/
def dictFind {α : Type} (m : List (Nat × α)) (k : Nat) : Option α :=
  match m with
  | [] => none
  | (k', v) :: t => if k = k' then some v else dictFind t k

/-- Python dict assignment `d[k] = v`: replace in place when the key exists,
append (insertion order) when it does not. -/
def dictSet {α : Type} (m : List (Nat × α)) (k : Nat) (v : α) : List (Nat × α) :=
  match m with
  | [] => [(k, v)]
  | (k', v') :: t => if k = k' then (k, v) :: t else (k', v') :: dictSet t k v

/-- Python dict deletion `del d[k]` (on a present key). -/
def dictDel {α : Type} (m : List (Nat × α)) (k : Nat) : List (Nat × α) :=
  match m with
  | [] => []
  | (k', v') :: t => if k = k' then t else (k', v') :: dictDel t k

/-- Iteration order of a Python dict: its keys in insertion order. -/
def dictKeys {α : Type} (m : List (Nat × α)) : List Nat :=
  m.map Prod.fst

/-- Python `set.add`: insert when absent, no-op when already a member. -/
def setAdd (s : List Nat) (h : Nat) : List Nat :=
  if h ∈ s then s else s ++ [h]

/-- Python `set.remove`: remove the member, or raise `KeyError` when absent. -/
def pySetRemove (s : List Nat) (h : Nat) : Except PyErr (List Nat) :=
  if h ∈ s then .ok (s.erase h) else .error (.keyError h)

/-- The shared mutable state: the class-level registry `signal_map`
(signal to handler set), the class-level override table `replaced_signals`
(signal to previously installed disposition), the process-wide OS
disposition table behind `signal.signal`, and the event-loop watcher table
behind `loop.add_signal_handler` (signal to the manager id whose dispatch
callback is wired). -/
structure World where
  signal_map : List (Nat × List Nat)
  replaced_signals : List (Nat × Disposition)
  os : List (Nat × Disposition)
  loopWatchers : List (Nat × Nat)
  deriving DecidableEq, Repr

/-- One `SignalManager` instance: its identifier (standing for the identity
of its bound `_handle_signal` method) and its `event_loop` attribute
(`none` means direct mode). -/
structure Manager where
  instId : Nat
  event_loop : Option Nat
  deriving DecidableEq, Repr

/-- Current OS disposition of a signal (`signal.getsignal`); signals never
touched hold the process default. -/
def getsignal (os : List (Nat × Disposition)) (sig : Nat) : Disposition :=
  (dictFind os sig).getD .dfl

/-- `signal.signal(sig, d)`: install disposition `d` for `sig` and return
the disposition that was in effect immediately before. -/
def signal_signal (w : World) (sig : Nat) (d : Disposition) : Disposition × World :=
  (getsignal w.os sig, { w with os := dictSet w.os sig d })

/-- `loop.add_signal_handler(sig, callback)`: wire the callback (here: the
dispatch of manager `mgr`) for `sig`, replacing any previous watcher. -/
def loopAddSignalHandler (w : World) (sig mgr : Nat) : World :=
  { w with loopWatchers := dictSet w.loopWatchers sig mgr }

/-- `loop.remove_signal_handler(sig)`: drop the watcher for `sig` (no error
when absent). -/
def loopRemoveSignalHandler (w : World) (sig : Nat) : World :=
  { w with loopWatchers := dictDel w.loopWatchers sig }

/-- `SignalManager.__init__(event_loop=None)`: use the supplied loop, else
the running loop discovered on the calling thread, else (on `RuntimeError`)
fall back to direct mode. The constructor touches neither `signal_map` nor
`replaced_signals` (they are class attributes created once, at class
definition); the world is returned unchanged. -/
def SignalManager_init (requested running : Option Nat) (instId : Nat) (w : World) :
    Manager × World :=
  ({ instId := instId
     event_loop := match requested with
       | some l => some l
       | none => running }, w)

/-- `SignalManager._add_signal_handler(sig)`: in direct mode swap the OS
disposition for `sig` to the dispatch trampoline and record the replaced
disposition in the override table; in event-loop mode wire a loop watcher. -/
def priv_add_signal_handler (m : Manager) (w : World) (sig : Nat) : World :=
  match m.event_loop with
  | none =>
      let r := signal_signal w sig (.trampoline m.instId)
      { r.2 with replaced_signals := dictSet r.2.replaced_signals sig r.1 }
  | some _ => loopAddSignalHandler w sig m.instId

/-- `SignalManager._remove_signal_handler(sig)`: in direct mode restore the
disposition recorded in `replaced_signals[sig]` (an unguarded dict lookup:
`KeyError` when absent) and delete the override entry; in event-loop mode
detach the loop watcher. -/
def priv_remove_signal_handler (m : Manager) (w : World) (sig : Nat) :
    Except PyErr World :=
  match m.event_loop with
  | none =>
      match dictFind w.replaced_signals sig with
      | none => .error (.keyError sig)
      | some d =>
          let r := signal_signal w sig d
          .ok { r.2 with replaced_signals := dictDel r.2.replaced_signals sig }
  | some _ => .ok (loopRemoveSignalHandler w sig)

/-- `SignalManager.add_signal_handler(sig, handler)`: on first interest in
`sig` create an empty handler set and install the hook, then insert the
handler into the signal's set. -/
def add_signal_handler (m : Manager) (w : World) (sig h : Nat) : World :=
  let w1 :=
    if (dictFind w.signal_map sig).isSome then w
    else priv_add_signal_handler m { w with signal_map := dictSet w.signal_map sig [] } sig
  let s := (dictFind w1.signal_map sig).getD []
  { w1 with signal_map := dictSet w1.signal_map sig (setAdd s h) }

/-- `SignalManager.remove_signal_handler(sig, handler)`: silent no-op when
`sig` has no registry entry; otherwise `try: set.remove(handler) except
KeyError: pass`. -/
def remove_signal_handler (_m : Manager) (w : World) (sig h : Nat) : World :=
  match dictFind w.signal_map sig with
  | none => w
  | some s =>
      match pySetRemove s h with
      | .ok s' => { w with signal_map := dictSet w.signal_map sig s' }
      | .error _ => w

/-- `SignalManager._handle_signal(signum, frame)` when no handler raises:
the unguarded lookup `self.signal_map[signum]` (a `KeyError` when the
signal has no registry entry) followed by the fan-out loop; returns the
invocations performed, each handler called with `(signum, frame)`. -/
def handle_signal (w : World) (signum frame : Nat) :
    Except PyErr (List (Nat × Nat × Nat)) :=
  match dictFind w.signal_map signum with
  | none => .error (.keyError signum)
  | some s => .ok (s.map fun h => (h, signum, frame))

/-- The fan-out loop of `_handle_signal` when handler bodies may raise:
`beh h` is what calling handler `h` does (`none`: returns; `some e`:
raises `e`). Invokes handlers left to right, recording each invocation
`(handler, signum, frame)`; a raise stops the loop and the error
propagates (second component). -/
def runHandlers (beh : Nat → Option PyErr) (signum frame : Nat) :
    List Nat → List (Nat × Nat × Nat) × Option PyErr
  | [] => ([], none)
  | h :: t =>
      match beh h with
      | some e => ([(h, signum, frame)], some e)
      | none =>
          let r := runHandlers beh signum frame t
          ((h, signum, frame) :: r.1, r.2)

/-- `SignalManager._handle_signal` with raising handlers: the registry
lookup (a `KeyError` when absent, with no handler invoked) followed by
the unguarded fan-out loop. -/
def dispatchWith (beh : Nat → Option PyErr) (w : World) (signum frame : Nat) :
    List (Nat × Nat × Nat) × Option PyErr :=
  match dictFind w.signal_map signum with
  | none => ([], some (.keyError signum))
  | some s => runHandlers beh signum frame s

/-- First loop of `__exit__`: `for sig in self.signal_map:
self._remove_signal_handler(sig)`, over the registry keys in iteration
order (the loop body does not mutate `signal_map`). -/
def foldRemove (m : Manager) : List Nat → World → Except PyErr World
  | [], w => .ok w
  | sig :: t, w =>
      match priv_remove_signal_handler m w sig with
      | .error e => .error e
      | .ok w' => foldRemove m t w'

/-- Second loop of `__exit__`: `for sig in self.replaced_signals:
signal.signal(sig, self.replaced_signals[sig])`, over the override-table
keys (an unguarded dict lookup inside the body). -/
def foldRestore : List Nat → World → Except PyErr World
  | [], w => .ok w
  | sig :: t, w =>
      match dictFind w.replaced_signals sig with
      | none => .error (.keyError sig)
      | some d => foldRestore t (signal_signal w sig d).2

/-- `SignalManager.__exit__`: run the removal loop over the registry keys,
then the restore loop over the (then remaining) override-table keys. -/
def exitSM (m : Manager) (w : World) : Except PyErr World :=
  match foldRemove m (dictKeys w.signal_map) w with
  | .error e => .error e
  | .ok w1 => foldRestore (dictKeys w1.replaced_signals) w1

/-- A world with untouched class attributes, OS table and loop: the state
at class-definition time. -/
def emptyWorld : World :=
  { signal_map := [], replaced_signals := [], os := [], loopWatchers := [] }

/-- A direct-mode manager instance (no event loop). -/
def directMgr : Manager := { instId := 0, event_loop := none }

/-- A populated example world: signal 2 carries handlers 5 and 7, with an
override entry and an installed trampoline. -/
def wEx : World :=
  { signal_map := [(2, [5, 7])], replaced_signals := [(2, .user 9)],
    os := [(2, .trampoline 0)], loopWatchers := [] }

/-! ## Dictionary and set lemmas -/

theorem dictFind_dictSet_self {α : Type} (m : List (Nat × α)) (k : Nat) (v : α) :
    dictFind (dictSet m k v) k = some v := by
  induction m with
  | nil => simp [dictSet, dictFind]
  | cons p t ih =>
      by_cases hk : k = p.1
      · simp [dictSet, dictFind, hk]
      · simp [dictSet, dictFind, hk, ih]

theorem dictSet_of_find {α : Type} {m : List (Nat × α)} {k : Nat} {v : α}
    (h : dictFind m k = some v) : dictSet m k v = m := by
  induction m with
  | nil => simp [dictFind] at h
  | cons p t ih =>
      obtain ⟨k', v'⟩ := p
      by_cases hk : k = k'
      · simp [dictFind, hk] at h
        simp [dictSet, hk, h]
      · simp [dictFind, hk] at h
        simp [dictSet, hk, ih h]

theorem getsignal_dictSet_self (os : List (Nat × Disposition)) (k : Nat) (d : Disposition) :
    getsignal (dictSet os k d) k = d := by
  simp [getsignal, dictFind_dictSet_self]

theorem mem_setAdd_self (s : List Nat) (h : Nat) : h ∈ setAdd s h := by
  by_cases hm : h ∈ s <;> simp [setAdd, hm]

theorem setAdd_of_mem {s : List Nat} {h : Nat} (hm : h ∈ s) : setAdd s h = s := by
  simp [setAdd, hm]

/-- Installing the hook (`_add_signal_handler`) never touches the registry. -/
theorem priv_add_signal_map (m : Manager) (w : World) (sig : Nat) :
    (priv_add_signal_handler m w sig).signal_map = w.signal_map := by
  cases hl : m.event_loop <;>
    simp [priv_add_signal_handler, hl, loopAddSignalHandler, signal_signal]

/-- After `add_signal_handler`, the registry maps the signal to its previous
set (empty when the signal was fresh) with the handler inserted. -/
theorem find_after_add (m : Manager) (w : World) (sig h : Nat) :
    dictFind (add_signal_handler m w sig h).signal_map sig
      = some (setAdd ((dictFind w.signal_map sig).getD []) h) := by
  unfold add_signal_handler
  cases hf : dictFind w.signal_map sig with
  | none =>
      simp [hf, priv_add_signal_map, dictFind_dictSet_self]
  | some s =>
      simp [hf, dictFind_dictSet_self]

/-- Removal of a registered handler rewrites the signal's set to its
erasure. -/
theorem remove_of_mem (m : Manager) (w : World) (S h : Nat) (s : List Nat)
    (hf : dictFind w.signal_map S = some s) (hm : h ∈ s) :
    remove_signal_handler m w S h
      = { w with signal_map := dictSet w.signal_map S (s.erase h) } := by
  simp [remove_signal_handler, hf, pySetRemove, hm]

/-- `add_signal_handler` on an already-registered signal only updates that
signal's handler set. -/
theorem add_of_found (m : Manager) (w : World) (sig h : Nat)
    (hs : (dictFind w.signal_map sig).isSome) :
    add_signal_handler m w sig h
      = { w with
          signal_map :=
            dictSet w.signal_map sig (setAdd ((dictFind w.signal_map sig).getD []) h) } := by
  simp [add_signal_handler, hs]

/-- Counting an invocation record equals counting the handler. -/
theorem count_map_handler (l : List Nat) (a S f : Nat) :
    (l.map fun x => (x, S, f)).count (a, S, f) = l.count a := by
  induction l with
  | nil => simp
  | cons x t ih => simp [List.count_cons, ih]

/-- Inserting into a duplicate-free set yields exactly one occurrence. -/
theorem count_setAdd_self {s : List Nat} (h : Nat) (hnd : s.Nodup) :
    (setAdd s h).count h = 1 := by
  by_cases hm : h ∈ s
  · rw [setAdd_of_mem hm]
    exact List.count_eq_one_of_mem hnd hm
  · simp [setAdd, hm, List.count_eq_zero_of_not_mem hm]

/-- The fan-out loop stops at the first raising handler: handlers before it
run, the raiser runs and its error propagates, the rest never run. -/
theorem runHandlers_error (beh : Nat → Option PyErr) (S f : Nat)
    (l1 : List Nat) (h : Nat) (l2 : List Nat) (e : PyErr)
    (hok : ∀ x ∈ l1, beh x = none) (hraise : beh h = some e) :
    runHandlers beh S f (l1 ++ h :: l2)
      = ((l1 ++ [h]).map fun x => (x, S, f), some e) := by
  induction l1 with
  | nil => simp [runHandlers, hraise]
  | cons x t ih =>
      have hx : beh x = none := hok x (by simp)
      simp [runHandlers, hx, ih (fun y hy => hok y (by simp [hy]))]

/-! ## Claim theorems -/

/-- C1: the claim states that after `__exit__` both `signal_map` and
`replaced_signals` are empty. Evaluating the code: a direct-mode manager
registers handler 5 for signal 2 and tears down; the override table is
emptied and the OS disposition restored, but the registry still holds key 2
with its handler set — `__exit__` never clears `signal_map`. -/
theorem c1_exit_leaves_registry_nonempty :
    exitSM directMgr (add_signal_handler directMgr emptyWorld 2 5)
        = .ok { signal_map := [(2, [5])], replaced_signals := [],
                os := [(2, .dfl)], loopWatchers := [] } ∧
      ({ signal_map := [(2, [5])], replaced_signals := [],
         os := [(2, .dfl)], loopWatchers := [] } : World).signal_map ≠ [] :=
  ⟨rfl, by decide⟩

/-- C2: the claim states that a freshly constructed manager has empty
registry and override table regardless of what other instances did.
Evaluating the code: `signal_map` and `replaced_signals` are class-level
shared dicts, and `__init__` only sets `event_loop`; after instance 0
registers handler 5 for signal 2, constructing instance 1 leaves both
shared maps non-empty. -/
theorem c2_fresh_construction_sees_shared_state :
    (SignalManager_init none none 1 (add_signal_handler directMgr emptyWorld 2 5)).2.signal_map
        = [(2, [5])] ∧
    (SignalManager_init none none 1 (add_signal_handler directMgr emptyWorld 2 5)).2.replaced_signals
        = [(2, .dfl)] ∧
    (SignalManager_init none none 1 (add_signal_handler directMgr emptyWorld 2 5)).2.signal_map
        ≠ [] :=
  ⟨rfl, rfl, by decide⟩

/-- C4: `remove_signal_handler` never raises: a missing registry entry or a
non-member handler is a silent no-op leaving the state unchanged; otherwise
exactly the handler is removed from the signal's set and nothing else
changes. -/
theorem c4_remove_silent_noop_or_erase (m : Manager) (w : World) (S h : Nat) :
    (dictFind w.signal_map S = none → remove_signal_handler m w S h = w) ∧
    (∀ s, dictFind w.signal_map S = some s → h ∉ s →
      remove_signal_handler m w S h = w) ∧
    (∀ s, dictFind w.signal_map S = some s → h ∈ s →
      remove_signal_handler m w S h
        = { w with signal_map := dictSet w.signal_map S (s.erase h) }) := by
  refine ⟨fun hf => ?_, fun s hf hm => ?_, fun s hf hm => ?_⟩
  · simp [remove_signal_handler, hf]
  · simp [remove_signal_handler, hf, pySetRemove, hm]
  · simp [remove_signal_handler, hf, pySetRemove, hm]

/-- C4 witness: concrete removals on `wEx` — a present handler is erased,
a non-member handler and an unknown signal are no-ops. -/
theorem c4_remove_silent_noop_or_erase_witness :
    remove_signal_handler directMgr wEx 2 5
        = { signal_map := [(2, [7])], replaced_signals := [(2, .user 9)],
            os := [(2, .trampoline 0)], loopWatchers := [] } ∧
    remove_signal_handler directMgr wEx 2 9 = wEx ∧
    remove_signal_handler directMgr wEx 3 5 = wEx :=
  ⟨(c4_remove_silent_noop_or_erase directMgr wEx 2 5).2.2 [5, 7] rfl (by decide),
   (c4_remove_silent_noop_or_erase directMgr wEx 2 9).2.1 [5, 7] rfl (by decide),
   (c4_remove_silent_noop_or_erase directMgr wEx 3 5).1 rfl⟩

/-- C8: `remove_signal_handler` never uninstalls the hook and never deletes
the registry entry: the override table, the OS disposition table and the
loop-watcher table are untouched by any removal, and a signal present in
the registry is still present afterwards. -/
theorem c8_remove_preserves_hooks (m : Manager) (w : World) (S h : Nat) :
    (remove_signal_handler m w S h).replaced_signals = w.replaced_signals ∧
    (remove_signal_handler m w S h).os = w.os ∧
    (remove_signal_handler m w S h).loopWatchers = w.loopWatchers ∧
    ((dictFind w.signal_map S).isSome →
      (dictFind (remove_signal_handler m w S h).signal_map S).isSome) := by
  cases hf : dictFind w.signal_map S with
  | none => simp [remove_signal_handler, hf]
  | some s =>
      by_cases hm : h ∈ s <;>
        simp [remove_signal_handler, hf, pySetRemove, hm, dictFind_dictSet_self]

/-- C8 witness: removing handler 5 of signal 2 on `wEx` leaves the key
present and the override table unchanged. -/
theorem c8_remove_preserves_hooks_witness :
    (dictFind (remove_signal_handler directMgr wEx 2 5).signal_map 2).isSome ∧
    (remove_signal_handler directMgr wEx 2 5).replaced_signals = wEx.replaced_signals :=
  ⟨(c8_remove_preserves_hooks directMgr wEx 2 5).2.2.2 (by decide),
   (c8_remove_preserves_hooks directMgr wEx 2 5).1⟩

/-- C10: dispatching a signal with no registry entry raises `KeyError` (the
unguarded `self.signal_map[signum]` lookup); the error branch occurs exactly
when the signal is not a registry key. -/
theorem c10_handle_signal_keyerror_iff (w : World) (S f : Nat) :
    (∃ e, handle_signal w S f = .error e) ↔ dictFind w.signal_map S = none := by
  cases hf : dictFind w.signal_map S <;> simp [handle_signal, hf]

/-- C3: in direct mode, `add_signal_handler(S, h)` followed by teardown
restores the process disposition for `S` to exactly the disposition in
effect immediately before the first registration of `S` (starting from
untouched class-level maps, with an arbitrary OS disposition table). -/
theorem c3_exit_restores_disposition (m : Manager) (os : List (Nat × Disposition))
    (lw : List (Nat × Nat)) (S h : Nat) (hloop : m.event_loop = none) :
    ∃ w2,
      exitSM m (add_signal_handler m
        { signal_map := [], replaced_signals := [], os := os, loopWatchers := lw } S h)
        = .ok w2 ∧
      getsignal w2.os S = getsignal os S := by
  obtain ⟨mid, ml⟩ := m
  simp only [Manager.event_loop] at hloop
  subst hloop
  refine ⟨{ signal_map := [(S, [h])], replaced_signals := [],
            os := dictSet (dictSet os S (.trampoline mid)) S (getsignal os S),
            loopWatchers := lw }, ?_, ?_⟩
  · simp [exitSM, add_signal_handler, priv_add_signal_handler,
          priv_remove_signal_handler, signal_signal, dictFind, dictSet, dictDel,
          dictKeys, foldRemove, foldRestore, setAdd, getsignal]
  · rw [getsignal_dictSet_self]

/-- C3 witness: concrete round trip for signal 2, handler 5, empty OS
table. -/
theorem c3_exit_restores_disposition_witness :
    ∃ w2,
      exitSM directMgr (add_signal_handler directMgr
        { signal_map := [], replaced_signals := [], os := [], loopWatchers := [] } 2 5)
        = .ok w2 ∧
      getsignal w2.os 2 = getsignal [] 2 :=
  c3_exit_restores_disposition directMgr [] [] 2 5 rfl

/-- C9: teardown is not idempotent in direct mode: after one registration
and a completed first `__exit__`, a second `__exit__` raises `KeyError`,
because the first pass emptied the override table while leaving the
registry key in place. -/
theorem c9_second_exit_keyerror (m : Manager) (os : List (Nat × Disposition))
    (lw : List (Nat × Nat)) (S h : Nat) (hloop : m.event_loop = none) :
    ∃ w2,
      exitSM m (add_signal_handler m
        { signal_map := [], replaced_signals := [], os := os, loopWatchers := lw } S h)
        = .ok w2 ∧
      exitSM m w2 = .error (.keyError S) := by
  obtain ⟨mid, ml⟩ := m
  simp only [Manager.event_loop] at hloop
  subst hloop
  refine ⟨{ signal_map := [(S, [h])], replaced_signals := [],
            os := dictSet (dictSet os S (.trampoline mid)) S (getsignal os S),
            loopWatchers := lw }, ?_, ?_⟩
  · simp [exitSM, add_signal_handler, priv_add_signal_handler,
          priv_remove_signal_handler, signal_signal, dictFind, dictSet, dictDel,
          dictKeys, foldRemove, foldRestore, setAdd, getsignal]
  · simp [exitSM, priv_remove_signal_handler, dictFind, dictKeys, foldRemove]

/-- C9 witness: concrete double teardown for signal 2, handler 5. -/
theorem c9_second_exit_keyerror_witness :
    ∃ w2,
      exitSM directMgr (add_signal_handler directMgr
        { signal_map := [], replaced_signals := [], os := [], loopWatchers := [] } 2 5)
        = .ok w2 ∧
      exitSM directMgr w2 = .error (.keyError 2) :=
  c9_second_exit_keyerror directMgr [] [] 2 5 rfl

/-- C5: `add_signal_handler` is idempotent per `(signal, handler)` pair:
adding the same handler twice leaves exactly the state of adding it once,
and a subsequent delivery invokes the handler exactly once (the signal's
previous handler set being duplicate-free). -/
theorem c5_add_idempotent (m : Manager) (w : World) (S h f : Nat)
    (hnd : ((dictFind w.signal_map S).getD []).Nodup) :
    add_signal_handler m (add_signal_handler m w S h) S h
        = add_signal_handler m w S h ∧
    ∃ calls,
      handle_signal (add_signal_handler m w S h) S f = .ok calls ∧
      calls.count (h, S, f) = 1 := by
  have hfa := find_after_add m w S h
  constructor
  · rw [add_of_found m _ S h (by rw [hfa]; rfl), hfa]
    simp only [Option.getD_some]
    rw [setAdd_of_mem (mem_setAdd_self _ _), dictSet_of_find hfa]
  · refine ⟨(setAdd ((dictFind w.signal_map S).getD []) h).map fun x => (x, S, f),
      by simp [handle_signal, hfa], ?_⟩
    rw [count_map_handler]
    exact count_setAdd_self h hnd

/-- C5 witness: double registration of handler 5 for signal 2 from the
pristine world collapses to a single registration, and delivery invokes it
once. -/
theorem c5_add_idempotent_witness :
    add_signal_handler directMgr (add_signal_handler directMgr emptyWorld 2 5) 2 5
        = add_signal_handler directMgr emptyWorld 2 5 ∧
    ∃ calls,
      handle_signal (add_signal_handler directMgr emptyWorld 2 5) 2 0 = .ok calls ∧
      calls.count (5, 2, 0) = 1 :=
  c5_add_idempotent directMgr emptyWorld 2 5 0 (by decide)

/-- C6: one delivery invokes exactly the currently registered handlers,
each once with `(signal, frame)`: after registering `h1` then `h2` for a
fresh signal, dispatch performs both invocations once each (in some
order); after additionally removing `h1`, dispatch performs only the
`h2` invocation. -/
theorem c6_dispatch_invokes_registered (m : Manager) (w : World) (S f h1 h2 : Nat)
    (hfresh : dictFind w.signal_map S = none) (hne : h1 ≠ h2) :
    (∃ calls,
      handle_signal (add_signal_handler m (add_signal_handler m w S h1) S h2) S f
          = .ok calls ∧
      calls.Perm [(h1, S, f), (h2, S, f)]) ∧
    handle_signal
        (remove_signal_handler m
          (add_signal_handler m (add_signal_handler m w S h1) S h2) S h1) S f
      = .ok [(h2, S, f)] := by
  have e1 : dictFind (add_signal_handler m w S h1).signal_map S = some [h1] := by
    rw [find_after_add, hfresh]
    simp [setAdd]
  have e2 : dictFind
      (add_signal_handler m (add_signal_handler m w S h1) S h2).signal_map S
      = some [h1, h2] := by
    rw [find_after_add, e1]
    simp [setAdd, Ne.symm hne]
  refine ⟨⟨[(h1, S, f), (h2, S, f)], by simp [handle_signal, e2], List.Perm.refl _⟩, ?_⟩
  rw [remove_of_mem m _ S h1 [h1, h2] e2 (by simp)]
  simp [handle_signal, dictFind_dictSet_self]

/-- C6 witness: handlers 5 and 7 on signal 2: both invoked once; after
removing 5, only 7 is invoked. -/
theorem c6_dispatch_invokes_registered_witness :
    (∃ calls,
      handle_signal (add_signal_handler directMgr
        (add_signal_handler directMgr emptyWorld 2 5) 2 7) 2 0 = .ok calls ∧
      calls.Perm [(5, 2, 0), (7, 2, 0)]) ∧
    handle_signal
        (remove_signal_handler directMgr
          (add_signal_handler directMgr
            (add_signal_handler directMgr emptyWorld 2 5) 2 7) 2 5) 2 0
      = .ok [(7, 2, 0)] :=
  c6_dispatch_invokes_registered directMgr emptyWorld 2 0 5 7 rfl (by decide)

/-- C7: an error raised by a handler is not caught by the dispatcher: the
handlers before it run, the raiser runs and its error propagates to the
caller of dispatch, and the handlers after it never run in that
delivery. -/
theorem c7_handler_error_aborts (beh : Nat → Option PyErr) (w : World) (S f : Nat)
    (l1 : List Nat) (h : Nat) (l2 : List Nat) (e : PyErr)
    (hf : dictFind w.signal_map S = some (l1 ++ h :: l2))
    (hok : ∀ x ∈ l1, beh x = none) (hraise : beh h = some e) :
    dispatchWith beh w S f = ((l1 ++ [h]).map fun x => (x, S, f), some e) := by
  rw [dispatchWith, hf]
  exact runHandlers_error beh S f l1 h l2 e hok hraise

/-- C7 witness: handlers 5, 7, 9 on signal 2 with handler 7 raising:
handlers 5 and 7 are invoked, the error propagates, handler 9 never
runs. -/
theorem c7_handler_error_aborts_witness :
    dispatchWith (fun x => if x = 7 then some (.keyError 0) else none)
        { signal_map := [(2, [5, 7, 9])], replaced_signals := [],
          os := [], loopWatchers := [] } 2 0
      = ([(5, 2, 0), (7, 2, 0)], some (.keyError 0)) :=
  c7_handler_error_aborts (fun x => if x = 7 then some (.keyError 0) else none)
    _ 2 0 [5] 7 [9] (.keyError 0) rfl (by decide) (by decide)

end SignalManagerModel
